import Mathlib

/-!
Verification of the Turing-pattern reaction-diffusion notebook
(src/notebooks/chapter12_deterministic/04_turing.ipynb).

The notebook simulates the system
  du/dt = a Δu + u - u^3 - v + k
  tau dv/dt = b Δv + u - v
on a square grid with Neumann boundary conditions, by explicit
finite differences.  We embed the numerical core shallowly:
a grid is a function from a pair of natural indices to a rational
number (exact arithmetic standing in for IEEE floats); the numpy
slice operations of the notebook are translated index-by-index.
-/

namespace Turing

/-- A 2D field of values, indexed by row and column.  Only the entries
with both indices below the grid size are meaningful; this mirrors the
notebook's size x size numpy arrays. -/
def Grid : Type := ℕ → ℕ → ℚ

/-- The five-point-stencil discrete Laplacian, translated from the
notebook's laplacian function.  The numpy slices
Ztop = Z[0:-2,1:-1], Zleft = Z[1:-1,0:-2], Zbottom = Z[2:,1:-1],
Zright = Z[1:-1,2:], Zcenter = Z[1:-1,1:-1] give, entrywise,
L[i][j] = (Z[i][j+1] + Z[i+1][j] + Z[i+2][j+1] + Z[i+1][j+2]
           - 4*Z[i+1][j+1]) / dx^2,
the (n-2) x (n-2) result being indexed from 0.  The function is pure:
it reads Z and never writes to it. -/
def laplacian (dx : ℚ) (Z : Grid) : Grid :=
  fun i j =>
    (Z i (j + 1) + Z (i + 1) j + Z (i + 2) (j + 1) + Z (i + 1) (j + 2)
      - 4 * Z (i + 1) (j + 1)) / dx ^ 2

/-- Whether (i, j) is an interior cell of an n x n grid: the numpy
slice Z[1:-1,1:-1] covers rows and columns 1 .. n-2. -/
def isInterior (n i j : ℕ) : Prop :=
  1 ≤ i ∧ i ≤ n - 2 ∧ 1 ≤ j ∧ j ≤ n - 2

instance (n i j : ℕ) : Decidable (isInterior n i j) := by
  unfold isInterior; infer_instance

/-- Z[0,:] = Z[1,:] from the Neumann loop. -/
def setTop (Z : Grid) : Grid :=
  fun i j => if i = 0 then Z 1 j else Z i j

/-- Z[-1,:] = Z[-2,:] from the Neumann loop. -/
def setBottom (n : ℕ) (Z : Grid) : Grid :=
  fun i j => if i = n - 1 then Z (n - 2) j else Z i j

/-- Z[:,0] = Z[:,1] from the Neumann loop. -/
def setLeft (Z : Grid) : Grid :=
  fun i j => if j = 0 then Z i 1 else Z i j

/-- Z[:,-1] = Z[:,-2] from the Neumann loop. -/
def setRight (n : ℕ) (Z : Grid) : Grid :=
  fun i j => if j = n - 1 then Z i (n - 2) else Z i j

/-- The Neumann boundary enforcement of the notebook: the two row
copies followed by the two column copies, each pass reading the array
as left by the previous one. -/
def enforce (n : ℕ) (Z : Grid) : Grid :=
  setRight n (setLeft (setBottom n (setTop Z)))

/-- The first component of the loop's tuple assignment: the interior
slice of U becomes Uc + dt * (a * deltaU + Uc - Uc**3 - Vc + k), where
deltaU = laplacian(U) and Uc, Vc are the interior views of the incoming
fields; cell (i, j) of the full grid pairs with cell (i-1, j-1) of the
Laplacian array. -/
def updateU (n : ℕ) (dx dt a k : ℚ) (U V : Grid) : Grid :=
  fun i j =>
    if isInterior n i j then
      U i j + dt * (a * laplacian dx U (i - 1) (j - 1) + U i j
        - (U i j) ^ 3 - V i j + k)
    else U i j

/-- The second component of the loop's tuple assignment: the interior
slice of V becomes Vc + dt * (b * deltaV + Uc - Vc) / tau, with Uc read
from the incoming (pre-assignment) U. -/
def updateV (n : ℕ) (dx dt b tau : ℚ) (U V : Grid) : Grid :=
  fun i j =>
    if isInterior n i j then
      V i j + dt * (b * laplacian dx V (i - 1) (j - 1) + U i j - V i j) / tau
    else V i j

/-- One iteration of the notebook's time-stepping loop.  The tuple
assignment evaluates both right-hand sides from the incoming state
before either write, so both updates read pre-step values; afterwards
the Neumann loop rewrites the edges of both fields. -/
def step (n : ℕ) (dx dt a b tau k : ℚ) (s : Grid × Grid) : Grid × Grid :=
  (enforce n (updateU n dx dt a k s.1 s.2),
   enforce n (updateV n dx dt b tau s.1 s.2))

/-- Iterating the loop body, as for i in range(steps) does. -/
def simulate (n : ℕ) (dx dt a b tau k : ℚ) (steps : ℕ)
    (s : Grid × Grid) : Grid × Grid :=
  (step n dx dt a b tau k)^[steps] s

/-- Snapshot-semantics stepper, written after the specification's words:
both right-hand sides are computed from the same pre-step snapshot of
the fields, and only then are both written back to the interior,
followed by boundary enforcement.  Used to state the simultaneity
claim about the notebook's tuple assignment. -/
def stepBothFromSnapshot (n : ℕ) (dx dt a b tau k : ℚ)
    (s : Grid × Grid) : Grid × Grid :=
  let uRhs : Grid := fun i j =>
    s.1 i j + dt * (a * laplacian dx s.1 (i - 1) (j - 1) + s.1 i j
      - (s.1 i j) ^ 3 - s.2 i j + k)
  let vRhs : Grid := fun i j =>
    s.2 i j + dt * (b * laplacian dx s.2 (i - 1) (j - 1) + s.1 i j
      - s.2 i j) / tau
  let uNew : Grid := fun i j => if isInterior n i j then uRhs i j else s.1 i j
  let vNew : Grid := fun i j => if isInterior n i j then vRhs i j else s.2 i j
  (enforce n uNew, enforce n vNew)

/-- Space step, generalised from dx = 2./size on the domain [-1,1]^2:
dx = 2 * domainHalfWidth / gridSize. -/
def deriveDx (domainHalfWidth : ℚ) (gridSize : ℕ) : ℚ :=
  2 * domainHalfWidth / (gridSize : ℚ)

/-- Time step, from dt = .9 * dx**2/2. -/
def deriveDt (dx : ℚ) : ℚ :=
  (9 / 10) * dx ^ 2 / 2

/-- Python's int() applied to a float: truncation toward zero. -/
def pyInt (q : ℚ) : ℤ :=
  if 0 ≤ q then ⌊q⌋ else ⌈q⌉

/-- Number of iterations, from n = int(T/dt). -/
def deriveStepCount (totalTime dt : ℚ) : ℤ :=
  pyInt (totalTime / dt)

/-- The scalar parameter bundle of the notebook. -/
structure Params where
  a : ℚ
  b : ℚ
  tau : ℚ
  k : ℚ
  gridSize : ℕ
  totalTime : ℚ

/-- The only error condition named by the specification for
configuration time. -/
inductive ConfigError
  | invalidParameter
deriving DecidableEq

/-- Configuration as the notebook performs it: the parameter cells are
plain assignments (a = 2.8e-4 and so on), with no validation of any
kind, so configuration always succeeds whatever the values. -/
def configure (a b tau k : ℚ) (gridSize : ℕ) (totalTime : ℚ) :
    Except ConfigError Params :=
  .ok ⟨a, b, tau, k, gridSize, totalTime⟩

/-- The all-zero field, for the homogeneous-state claims. -/
def zeroGrid : Grid := fun _ _ => 0

/-- The all-c field. -/
def constGrid (c : ℚ) : Grid := fun _ _ => c

/-- A sample concrete field used by witnesses. -/
def sampleGrid : Grid := fun i j => (i : ℚ) ^ 2 + 2 * (j : ℚ) + 1

/-- A second sample concrete field used by witnesses. -/
def sampleGrid2 : Grid := fun i j => (i : ℚ) + 3 * (j : ℚ)

end Turing

namespace Turing

/-- Closed form of one boundary-enforcement pass: each index is routed
to its clamped interior neighbour, corners getting the column-copy
value because the column passes run over the row-updated array. -/
lemma enforce_apply (n : ℕ) (hn : 3 ≤ n) (Z : Grid) (i j : ℕ) :
    enforce n Z i j
      = Z (if i = 0 then 1 else if i = n - 1 then n - 2 else i)
          (if j = 0 then 1 else if j = n - 1 then n - 2 else j) := by
  simp only [enforce, setRight, setLeft, setBottom, setTop]
  split_ifs <;> first
    | rfl
    | (congr 1 <;> omega)

/-- Interior cells are untouched by boundary enforcement. -/
lemma enforce_interior (n : ℕ) (hn : 3 ≤ n) (Z : Grid) (i j : ℕ)
    (h : isInterior n i j) : enforce n Z i j = Z i j := by
  obtain ⟨hi1, hi2, hj1, hj2⟩ := h
  rw [enforce_apply n hn Z i j,
    if_neg (by omega : ¬ i = 0), if_neg (by omega : ¬ i = n - 1),
    if_neg (by omega : ¬ j = 0), if_neg (by omega : ¬ j = n - 1)]

/-- The stencil at an interior cell, with the interior offsets
cancelled. -/
lemma laplacian_at_interior (dx : ℚ) (Z : Grid) (i j : ℕ)
    (hi : 1 ≤ i) (hj : 1 ≤ j) :
    laplacian dx Z (i - 1) (j - 1)
      = (Z (i - 1) j + Z i (j - 1) + Z (i + 1) j + Z i (j + 1)
          - 4 * Z i j) / dx ^ 2 := by
  obtain ⟨i, rfl⟩ : ∃ m, i = m + 1 := ⟨i - 1, by omega⟩
  obtain ⟨j, rfl⟩ : ∃ m, j = m + 1 := ⟨j - 1, by omega⟩
  simp only [laplacian, Nat.add_sub_cancel]

/-- C3: on an n x n field with n at least 3 and positive dx, the
Laplacian array entry L[i-1][j-1], for interior 1 <= i, j <= n-2, is
the five-point stencil (Z[i-1][j] + Z[i][j-1] + Z[i+1][j] + Z[i][j+1]
- 4 Z[i][j]) / dx^2; the operator is a pure function of Z and dx. -/
theorem laplacian_stencil (n : ℕ) (dx : ℚ) (Z : Grid) (i j : ℕ)
    (hn : 3 ≤ n) (hdx : 0 < dx) (hi1 : 1 ≤ i) (hi2 : i ≤ n - 2)
    (hj1 : 1 ≤ j) (hj2 : j ≤ n - 2) :
    laplacian dx Z (i - 1) (j - 1)
      = (Z (i - 1) j + Z i (j - 1) + Z (i + 1) j + Z i (j + 1)
          - 4 * Z i j) / dx ^ 2 :=
  laplacian_at_interior dx Z i j hi1 hj1

/-- Witness for C3 at n = 3, dx = 1, i = j = 1 on a concrete field. -/
theorem laplacian_stencil_witness :
    (3 ≤ 3 ∧ (0 : ℚ) < 1 ∧ 1 ≤ 1 ∧ 1 ≤ 3 - 2)
    ∧ laplacian 1 sampleGrid (1 - 1) (1 - 1)
      = (sampleGrid 0 1 + sampleGrid 1 0 + sampleGrid 2 1 + sampleGrid 1 2
          - 4 * sampleGrid 1 1) / (1 : ℚ) ^ 2 :=
  ⟨⟨by decide, by decide, by decide, by decide⟩,
    laplacian_stencil 3 1 sampleGrid 1 1 (by decide) (by decide)
      (by decide) (by decide) (by decide) (by decide)⟩

/-- C7: the Laplacian of a constant field vanishes at every interior
cell. -/
theorem laplacian_const_zero (c : ℚ) (n : ℕ) (dx : ℚ) (i j : ℕ)
    (hn : 3 ≤ n) (hdx : 0 < dx) (hi1 : 1 ≤ i) (hi2 : i ≤ n - 2)
    (hj1 : 1 ≤ j) (hj2 : j ≤ n - 2) :
    laplacian dx (constGrid c) (i - 1) (j - 1) = 0 := by
  rw [laplacian_at_interior dx (constGrid c) i j hi1 hj1]
  show (c + c + c + c - 4 * c) / dx ^ 2 = 0
  ring_nf

/-- Witness for C7 at c = 5, n = 3, dx = 2, i = j = 1. -/
theorem laplacian_const_zero_witness :
    (3 ≤ 3 ∧ (0 : ℚ) < 2 ∧ 1 ≤ 3 - 2)
    ∧ laplacian 2 (constGrid 5) (1 - 1) (1 - 1) = 0 :=
  ⟨⟨by decide, by decide, by decide⟩,
    laplacian_const_zero 5 3 2 1 1 (by decide) (by decide) (by decide)
      (by decide) (by decide) (by decide)⟩

/-- C10: boundary enforcement leaves every interior cell unchanged. -/
theorem enforce_frame_interior (n : ℕ) (Z : Grid) (i j : ℕ) (hn : 3 ≤ n)
    (h : isInterior n i j) : enforce n Z i j = Z i j :=
  enforce_interior n hn Z i j h

/-- Witness for C10 at n = 4, i = 2, j = 1 on a concrete field. -/
theorem enforce_frame_interior_witness :
    (3 ≤ 4 ∧ isInterior 4 2 1) ∧ enforce 4 sampleGrid 2 1 = sampleGrid 2 1 :=
  ⟨⟨by decide, by decide⟩,
    enforce_frame_interior 4 sampleGrid 2 1 (by decide) (by decide)⟩

/-- C4: boundary enforcement performs the row copies and then the
column copies over the row-updated array, so every corner ends up with
the column-copy value: the final corner values are the pre-enforcement
Z[1][1], Z[1][n-2], Z[n-2][1] and Z[n-2][n-2]. -/
theorem enforce_corners (n : ℕ) (Z : Grid) (hn : 3 ≤ n) :
    enforce n Z 0 0 = Z 1 1
    ∧ enforce n Z 0 (n - 1) = Z 1 (n - 2)
    ∧ enforce n Z (n - 1) 0 = Z (n - 2) 1
    ∧ enforce n Z (n - 1) (n - 1) = Z (n - 2) (n - 2) := by
  refine ⟨?_, ?_, ?_, ?_⟩ <;>
    · rw [enforce_apply n hn]
      split_ifs <;> first
        | rfl
        | (congr 1 <;> omega)

/-- Witness for C4 at n = 3 on a concrete field. -/
theorem enforce_corners_witness :
    3 ≤ 3
    ∧ (enforce 3 sampleGrid 0 0 = sampleGrid 1 1
      ∧ enforce 3 sampleGrid 0 (3 - 1) = sampleGrid 1 (3 - 2)
      ∧ enforce 3 sampleGrid (3 - 1) 0 = sampleGrid (3 - 2) 1
      ∧ enforce 3 sampleGrid (3 - 1) (3 - 1) = sampleGrid (3 - 2) (3 - 2)) :=
  ⟨by decide, enforce_corners 3 sampleGrid (by decide)⟩

/-- C8: applying boundary enforcement twice gives the same n x n field
as applying it once. -/
theorem enforce_idempotent (n : ℕ) (Z : Grid) (i j : ℕ) (hn : 3 ≤ n)
    (hi : i < n) (hj : j < n) :
    enforce n (enforce n Z) i j = enforce n Z i j := by
  rw [enforce_apply n hn (enforce n Z) i j, enforce_apply n hn Z,
    enforce_apply n hn Z i j]
  split_ifs <;> first
    | rfl
    | (congr 1 <;> omega)

/-- Witness for C8 at n = 3, corner cell (0, 0). -/
theorem enforce_idempotent_witness :
    (3 ≤ 3 ∧ 0 < 3)
    ∧ enforce 3 (enforce 3 sampleGrid) 0 0 = enforce 3 sampleGrid 0 0 :=
  ⟨⟨by decide, by decide⟩,
    enforce_idempotent 3 sampleGrid 0 0 (by decide) (by decide) (by decide)⟩

/-- C1: one step sets every interior cell of U to
U + dt * (a * Laplacian(U) + U - U^3 - V + k) and of V to
V + dt * (b * Laplacian(V) + U - V) / tau, all right-hand sides
evaluated at the pre-step fields. -/
theorem step_interior_formula (n : ℕ) (dx dt a b tau k : ℚ) (U V : Grid)
    (i j : ℕ) (hn : 3 ≤ n) (h : isInterior n i j) :
    (step n dx dt a b tau k (U, V)).1 i j
      = U i j + dt * (a * laplacian dx U (i - 1) (j - 1) + U i j
          - (U i j) ^ 3 - V i j + k)
    ∧ (step n dx dt a b tau k (U, V)).2 i j
      = V i j + dt * (b * laplacian dx V (i - 1) (j - 1) + U i j - V i j) / tau := by
  constructor
  · show enforce n (updateU n dx dt a k U V) i j = _
    rw [enforce_interior n hn _ i j h]
    simp only [updateU]
    exact if_pos h
  · show enforce n (updateV n dx dt b tau U V) i j = _
    rw [enforce_interior n hn _ i j h]
    simp only [updateV]
    exact if_pos h

/-- Witness for C1 at n = 3, i = j = 1 on concrete fields and
parameters. -/
theorem step_interior_formula_witness :
    (3 ≤ 3 ∧ isInterior 3 1 1)
    ∧ ((step 3 1 1 2 3 5 7 (sampleGrid, sampleGrid2)).1 1 1
        = sampleGrid 1 1 + 1 * (2 * laplacian 1 sampleGrid (1 - 1) (1 - 1)
            + sampleGrid 1 1 - (sampleGrid 1 1) ^ 3 - sampleGrid2 1 1 + 7)
      ∧ (step 3 1 1 2 3 5 7 (sampleGrid, sampleGrid2)).2 1 1
        = sampleGrid2 1 1 + 1 * (3 * laplacian 1 sampleGrid2 (1 - 1) (1 - 1)
            + sampleGrid 1 1 - sampleGrid2 1 1) / 5) :=
  ⟨⟨by decide, by decide⟩,
    step_interior_formula 3 1 1 2 3 5 7 sampleGrid sampleGrid2 1 1
      (by decide) (by decide)⟩

/-- C2: the interior update of V reads the pre-step U, and the whole
step coincides with computing both right-hand sides from the same
pre-step snapshot and only then writing both fields back. -/
theorem step_simultaneous (n : ℕ) (dx dt a b tau k : ℚ) (U V : Grid)
    (i j : ℕ) (hn : 3 ≤ n) (h : isInterior n i j) :
    (step n dx dt a b tau k (U, V)).2 i j
      = V i j + dt * (b * laplacian dx V (i - 1) (j - 1) + U i j - V i j) / tau
    ∧ step n dx dt a b tau k (U, V)
        = stepBothFromSnapshot n dx dt a b tau k (U, V) := by
  constructor
  · show enforce n (updateV n dx dt b tau U V) i j = _
    rw [enforce_interior n hn _ i j h]
    simp only [updateV]
    exact if_pos h
  · rfl

/-- Witness for C2 at n = 3, i = j = 1 on concrete fields. -/
theorem step_simultaneous_witness :
    (3 ≤ 3 ∧ isInterior 3 1 1)
    ∧ ((step 3 1 1 2 3 5 7 (sampleGrid2, sampleGrid)).2 1 1
        = sampleGrid 1 1 + 1 * (3 * laplacian 1 sampleGrid (1 - 1) (1 - 1)
            + sampleGrid2 1 1 - sampleGrid 1 1) / 5
      ∧ step 3 1 1 2 3 5 7 (sampleGrid2, sampleGrid)
          = stepBothFromSnapshot 3 1 1 2 3 5 7 (sampleGrid2, sampleGrid)) :=
  ⟨⟨by decide, by decide⟩,
    step_simultaneous 3 1 1 2 3 5 7 sampleGrid2 sampleGrid 1 1
      (by decide) (by decide)⟩

/-- C5: the derived parameters satisfy dx = 2*domainHalfWidth/gridSize,
dt = 0.9*dx^2/2, stepCount = floor(totalTime/dt), and the stability
bound dt <= dx^2/2 holds. -/
theorem derived_parameters (gridSize : ℕ) (domainHalfWidth totalTime : ℚ)
    (hg : 3 ≤ gridSize) (hw : 0 < domainHalfWidth) (hT : 0 < totalTime) :
    deriveDx domainHalfWidth gridSize = 2 * domainHalfWidth / (gridSize : ℚ)
    ∧ deriveDt (deriveDx domainHalfWidth gridSize)
        = 9 / 10 * (deriveDx domainHalfWidth gridSize) ^ 2 / 2
    ∧ deriveStepCount totalTime (deriveDt (deriveDx domainHalfWidth gridSize))
        = ⌊totalTime / deriveDt (deriveDx domainHalfWidth gridSize)⌋
    ∧ deriveDt (deriveDx domainHalfWidth gridSize)
        ≤ (deriveDx domainHalfWidth gridSize) ^ 2 / 2 := by
  have hg0 : (0 : ℚ) < (gridSize : ℚ) := by
    exact_mod_cast (by omega : 0 < gridSize)
  have hdx : 0 < deriveDx domainHalfWidth gridSize := by
    unfold deriveDx
    exact div_pos (by linarith) hg0
  have hdx2 : 0 < (deriveDx domainHalfWidth gridSize) ^ 2 := pow_pos hdx 2
  have hdt : 0 < deriveDt (deriveDx domainHalfWidth gridSize) := by
    unfold deriveDt
    linarith
  refine ⟨rfl, rfl, ?_, ?_⟩
  · have hq : 0 ≤ totalTime / deriveDt (deriveDx domainHalfWidth gridSize) :=
      le_of_lt (div_pos hT hdt)
    rw [deriveStepCount, pyInt, if_pos hq]
  · unfold deriveDt
    linarith

/-- Witness for C5 at the notebook's own values: gridSize = 80,
domainHalfWidth = 1, totalTime = 10. -/
theorem derived_parameters_witness :
    (3 ≤ 80 ∧ (0 : ℚ) < 1 ∧ (0 : ℚ) < 10)
    ∧ (deriveDx 1 80 = 2 * 1 / ((80 : ℕ) : ℚ)
      ∧ deriveDt (deriveDx 1 80) = 9 / 10 * (deriveDx 1 80) ^ 2 / 2
      ∧ deriveStepCount 10 (deriveDt (deriveDx 1 80))
          = ⌊(10 : ℚ) / deriveDt (deriveDx 1 80)⌋
      ∧ deriveDt (deriveDx 1 80) ≤ (deriveDx 1 80) ^ 2 / 2) :=
  ⟨⟨by decide, by decide, by decide⟩,
    derived_parameters 80 1 10 (by decide) (by decide) (by decide)⟩

/-- C6 counterexample: with a = b = 1 > 0, k = 0, tau = 1, dt = 1,
dx = 1 on a 3 x 3 grid, the constant state U = V = 1 is not left
unchanged by one step: the reaction term U - U^3 - V + k equals -1
there, so the interior cell of U drops from 1 to 0. -/
theorem const_one_not_fixed :
    (simulate 3 1 1 1 1 1 0 1 (constGrid 1, constGrid 1)).1 1 1
      ≠ constGrid 1 1 1 := by
  have h1 : (simulate 3 1 1 1 1 1 0 1 (constGrid 1, constGrid 1)).1 1 1 = 0 := by
    show enforce 3 (updateU 3 1 1 1 0 (constGrid 1) (constGrid 1)) 1 1 = 0
    rw [enforce_interior 3 (by norm_num) _ 1 1 (by decide)]
    norm_num [updateU, laplacian, constGrid, isInterior]
  rw [h1]
  norm_num [constGrid]

/-- C6 amended: with a = b > 0 and k = 0, the constant state whose
reaction term vanishes, namely U = V = 0 everywhere, is unchanged by
any number of simulation steps. -/
theorem zero_state_fixed (n : ℕ) (dx dt a b tau k : ℚ)
    (ha : 0 < a) (hab : a = b) (hk : k = 0) (m : ℕ) :
    simulate n dx dt a b tau k m (constGrid 0, constGrid 0)
      = (constGrid 0, constGrid 0) := by
  subst hk
  have hU : updateU n dx dt a 0 (constGrid 0) (constGrid 0) = constGrid 0 := by
    funext i j
    simp [updateU, laplacian, constGrid]
  have hV : updateV n dx dt b tau (constGrid 0) (constGrid 0) = constGrid 0 := by
    funext i j
    simp [updateV, laplacian, constGrid]
  have hE : enforce n (constGrid 0) = constGrid 0 := by
    funext i j
    simp only [enforce, setRight, setLeft, setBottom, setTop, constGrid]
    split_ifs <;> rfl
  have hstep : step n dx dt a b tau 0 (constGrid 0, constGrid 0)
      = (constGrid 0, constGrid 0) := by
    show (enforce n (updateU n dx dt a 0 (constGrid 0) (constGrid 0)),
          enforce n (updateV n dx dt b tau (constGrid 0) (constGrid 0)))
        = (constGrid 0, constGrid 0)
    rw [hU, hV, hE]
  induction m with
  | zero => rfl
  | succ m ih =>
    show (step n dx dt a b tau 0)^[m + 1] (constGrid 0, constGrid 0)
        = (constGrid 0, constGrid 0)
    rw [Function.iterate_succ_apply, hstep]
    exact ih

/-- Witness for the amended C6 at n = 3, a = b = tau = dt = dx = 1,
k = 0, two steps. -/
theorem zero_state_fixed_witness :
    ((0 : ℚ) < 1 ∧ (1 : ℚ) = 1 ∧ (0 : ℚ) = 0)
    ∧ simulate 3 1 1 1 1 1 0 2 (constGrid 0, constGrid 0)
        = (constGrid 0, constGrid 0) :=
  ⟨⟨by decide, rfl, rfl⟩, zero_state_fixed 3 1 1 1 1 1 0 (by decide) rfl rfl 2⟩

/-- C9 counterexample: configuring with the non-positive a = -1 (the
other values being the notebook's) succeeds rather than failing with
InvalidParameter: the notebook's parameter cells are plain assignments
with no validation. -/
theorem configure_negative_a_succeeds :
    configure (-1) (5 / 1000) (1 / 10) (-5 / 1000) 80 10
      ≠ Except.error ConfigError.invalidParameter :=
  fun h => Except.noConfusion h

/-- C9 amended: configuration never fails; the notebook performs no
parameter validation and accepts every value combination, proceeding
straight to the simulation. -/
theorem configure_always_ok (a b tau k : ℚ) (gridSize : ℕ) (totalTime : ℚ) :
    configure a b tau k gridSize totalTime
      = Except.ok ⟨a, b, tau, k, gridSize, totalTime⟩ :=
  rfl

end Turing
